import Mathlib

/- Verification of the MPC controller core in src/MPC.cpp.

   The C++ code is shallowly embedded over the reals: every `double` and
   every CppAD `AD<double>` value is modelled as a real number, and the
   transcendental functions `CppAD::cos`, `CppAD::sin`, `CppAD::atan` are
   modelled by `Real.cos`, `Real.sin`, `Real.arctan`.  Index arithmetic on
   the decision vector is performed by the C++ code in `size_t`, so the one
   place where it underflows (`x_start + t - 1` at `t = 0`) is modelled
   exactly, as arithmetic modulo 2 ^ 64.

   The decision vector handed to the evaluator (a `CPPAD_TESTVECTOR` of
   length `n_vars`) is modelled as a total function `vars : Nat -> Real`:
   positions below `n_vars` are the entries of the vector, and the value of
   `vars` at any position at or beyond `n_vars` models whatever an
   out-of-bounds read of the underlying buffer would return (such a read is
   undefined behaviour in C++; the embedding keeps it as an arbitrary,
   unconstrained real).  The external ipopt solver is out of scope; its
   terminal point is passed to the driver as an explicit `SolveResult`. -/

noncomputable section

/-- Horizon length, `size_t N = 10` in MPC.cpp line 15. -/
def N : ℕ := 10

/-- Timestep duration, `double dt = .1` in MPC.cpp line 16. -/
def dt : ℝ := 0.1

/-- Front-to-CoG geometric constant, `const double Lf = 2.67`, line 28. -/
def Lf : ℝ := 2.67

/-- Reference speed, `const double ref_v = 120`, line 31. -/
def ref_v : ℝ := 120

/-- Block offset of the x block, `const size_t x_start = 0`, line 34. -/
def x_start : ℕ := 0

/-- Block offset of the y block, `y_start = x_start + N`, line 35. -/
def y_start : ℕ := x_start + N

/-- Block offset of the psi block, `psi_start = y_start + N`, line 36. -/
def psi_start : ℕ := y_start + N

/-- Block offset of the v block, `v_start = psi_start + N`, line 37. -/
def v_start : ℕ := psi_start + N

/-- Block offset of the cte block, `cte_start = v_start + N`, line 38. -/
def cte_start : ℕ := v_start + N

/-- Block offset of the epsi block, `epsi_start = cte_start + N`, line 39. -/
def epsi_start : ℕ := cte_start + N

/-- Block offset of the steering block, `delta_start = epsi_start + N`, line 40. -/
def delta_start : ℕ := epsi_start + N

/-- Block offset of the acceleration block, `a_start = delta_start + N - 1`, line 41. -/
def a_start : ℕ := delta_start + N - 1

/-- Number of decision variables, `n_vars = N * 6 + (N - 1) * 2`, MPC.cpp line 118. -/
def n_vars : ℕ := N * 6 + (N - 1) * 2

/-- Number of constraints, `n_constraints = N * 6`, MPC.cpp line 121. -/
def n_constraints : ℕ := N * 6

/-- Index `s + t - 1` as the C++ expression `vars[s + t - 1]` computes it:
    `s` is a `size_t` and `t` an `int`, so the whole computation is carried
    out in `size_t` and wraps modulo 2 ^ 64 when `s + t = 0`. -/
def prevIdx (s t : ℕ) : ℕ := (s + t + (2 ^ 64 - 1)) % 2 ^ 64

/-- Current vehicle state: the six components read from `state[0..5]` in
    MPC.cpp lines 110-115. -/
structure State where
  x : ℝ
  y : ℝ
  psi : ℝ
  v : ℝ
  cte : ℝ
  epsi : ℝ

/-- Reference polynomial coefficients `coeffs[0..3]` (degree-3 fit). -/
structure Poly3 where
  c0 : ℝ
  c1 : ℝ
  c2 : ℝ
  c3 : ℝ

/-- Polynomial value `f0 = coeffs[0] + coeffs[1]*x0 + coeffs[2]*x0^2 +
    coeffs[3]*x0^3`, MPC.cpp line 86. -/
def f0val (c : Poly3) (x : ℝ) : ℝ := c.c0 + c.c1 * x + c.c2 * x ^ 2 + c.c3 * x ^ 3

/-- Derivative argument `coeffs[1] + 2*coeffs[2]*x0 + 3*coeffs[3]*x0^2` of
    line 87. -/
def fprime (c : Poly3) (x : ℝ) : ℝ := c.c1 + 2 * c.c2 * x + 3 * c.c3 * x ^ 2

/-- Desired heading `psi_des0 = atan(...)`, MPC.cpp line 87. -/
def psiDes (c : Poly3) (x : ℝ) : ℝ := Real.arctan (fprime c x)

/-- Residual written to `fg[1 + x_start + t]`, MPC.cpp line 90. -/
def residX (vars : ℕ → ℝ) (t : ℕ) : ℝ :=
  vars (x_start + t) -
    (vars (prevIdx x_start t) +
      vars (prevIdx v_start t) * Real.cos (vars (prevIdx psi_start t)) * dt)

/-- Residual written to `fg[1 + y_start + t]`, MPC.cpp line 91. -/
def residY (vars : ℕ → ℝ) (t : ℕ) : ℝ :=
  vars (y_start + t) -
    (vars (prevIdx y_start t) +
      vars (prevIdx v_start t) * Real.sin (vars (prevIdx psi_start t)) * dt)

/-- Residual written to `fg[1 + psi_start + t]`, MPC.cpp line 92. -/
def residPsi (vars : ℕ → ℝ) (t : ℕ) : ℝ :=
  vars (psi_start + t) -
    (vars (prevIdx psi_start t) -
      vars (prevIdx v_start t) * vars (prevIdx delta_start t) / Lf * dt)

/-- Residual written to `fg[1 + v_start + t]`, MPC.cpp line 93. -/
def residV (vars : ℕ → ℝ) (t : ℕ) : ℝ :=
  vars (v_start + t) - (vars (prevIdx v_start t) + vars (prevIdx a_start t) * dt)

/-- Residual written to `fg[1 + cte_start + t]`, MPC.cpp line 94. -/
def residCte (c : Poly3) (vars : ℕ → ℝ) (t : ℕ) : ℝ :=
  vars (cte_start + t) -
    ((f0val c (vars (prevIdx x_start t)) - vars (prevIdx y_start t)) +
      (vars (prevIdx v_start t) * Real.sin (vars (prevIdx epsi_start t)) * dt))

/-- Residual written to `fg[1 + epsi_start + t]`, MPC.cpp line 95. -/
def residEpsi (c : Poly3) (vars : ℕ → ℝ) (t : ℕ) : ℝ :=
  vars (epsi_start + t) -
    ((vars (prevIdx psi_start t) - psiDes c (vars (prevIdx x_start t))) -
      vars (prevIdx v_start t) * vars (prevIdx delta_start t) / Lf * dt)

/-- The `fg` array after `FG_eval::operator()` (MPC.cpp lines 50-97) ran:
    slot 0 holds the cost, which the code sets to 0 on line 53 and never
    touches again (the weight constants of lines 56-62 are declared but
    unused); for `t < N` the loop writes the six dynamics residuals to the
    slots `1 + block_start + t`, which tile `1 .. n_constraints` exactly
    once each, so the array is recovered from the slot index. -/
def fgEval (c : Poly3) (vars : ℕ → ℝ) (i : ℕ) : ℝ :=
  if i = 0 then 0
  else if i < 1 + y_start then residX vars (i - 1 - x_start)
  else if i < 1 + psi_start then residY vars (i - 1 - y_start)
  else if i < 1 + v_start then residPsi vars (i - 1 - psi_start)
  else if i < 1 + cte_start then residV vars (i - 1 - v_start)
  else if i < 1 + epsi_start then residCte c vars (i - 1 - cte_start)
  else if i < 1 + delta_start then residEpsi c vars (i - 1 - epsi_start)
  else 0

/-- Lower bounds on the decision variables, MPC.cpp lines 129-146: state
    entries get -1.0e19, steering entries -0.436332 * Lf, acceleration
    entries -1.0. -/
def varsLower (i : ℕ) : ℝ :=
  if i < delta_start then -1.0e19
  else if i < a_start then -0.436332 * Lf
  else -1.0

/-- Upper bounds on the decision variables, MPC.cpp lines 129-146: state
    entries get 1.0e19, steering entries 0.43632 * Lf (the literal on line
    140 as written), acceleration entries 1.0. -/
def varsUpper (i : ℕ) : ℝ :=
  if i < delta_start then 1.0e19
  else if i < a_start then 0.43632 * Lf
  else 1.0

/-- Constraint lower bounds, MPC.cpp lines 148-160: zero everywhere, then
    the six block-start slots are overwritten with the current state. -/
def constraintsLower (s : State) (i : ℕ) : ℝ :=
  if i = x_start then s.x
  else if i = y_start then s.y
  else if i = psi_start then s.psi
  else if i = v_start then s.v
  else if i = cte_start then s.cte
  else if i = epsi_start then s.epsi
  else 0

/-- Constraint upper bounds, MPC.cpp lines 148-153 and 162-168: identical
    content to the lower bounds. -/
def constraintsUpper (s : State) (i : ℕ) : ℝ :=
  if i = x_start then s.x
  else if i = y_start then s.y
  else if i = psi_start then s.psi
  else if i = v_start then s.v
  else if i = cte_start then s.cte
  else if i = epsi_start then s.epsi
  else 0

/-- Initial guess for the decision variables, MPC.cpp lines 124-127: every
    entry set to zero. -/
def varsInitial : List ℝ := List.replicate n_vars 0

/-- Terminal status of `CppAD::ipopt::solve_result`; the driver only ever
    compares it against `success` (MPC.cpp line 197). -/
inductive SolveStatus where
  | not_defined
  | success
  | maxiter_exceeded
  | stop_at_tiny_step
  | local_infeasibility
  | invalid_number_detected
  | internal_error
  deriving DecidableEq, BEq

/-- The solver outcome consumed by `MPC::Solve`: terminal status, terminal
    point and objective value (`solution.status`, `solution.x`,
    `solution.obj_value`). -/
structure SolveResult where
  status : SolveStatus
  x : ℕ → ℝ
  obj_value : ℝ

/-- Trajectory portion of the returned vector, MPC.cpp lines 209-212: the
    loop for `i = 0 .. N-3` pushes `solution.x[x_start + i + 1]` and
    `solution.x[y_start + i + 1]` in order. -/
def trajPairs (xv : ℕ → ℝ) : ℕ → List ℝ
  | 0 => []
  | n + 1 => trajPairs xv n ++ [xv (x_start + n + 1), xv (y_start + n + 1)]

/-- The body of `MPC::Solve` (MPC.cpp lines 106-214) after the external
    ipopt call, whose outcome is the explicit argument `solution`: the
    status is folded into the local flag `ok` (line 197), which is never
    read again, and the returned vector is built unconditionally from the
    terminal point (lines 203-213). -/
def MPC_Solve (_state : State) (_coeffs : Poly3) (solution : SolveResult) : List ℝ :=
  let _ok : Bool := solution.status == SolveStatus.success
  solution.x delta_start :: solution.x a_start :: trajPairs solution.x (N - 2)

/-- Decision-vector positions read by iteration `t` of the evaluator loop,
    MPC.cpp lines 67-84, in the order the loop body reads them. -/
def readIndicesAt (t : ℕ) : List ℕ :=
  [x_start + t, y_start + t, psi_start + t, v_start + t, cte_start + t, epsi_start + t,
   prevIdx x_start t, prevIdx y_start t, prevIdx psi_start t, prevIdx v_start t,
   prevIdx cte_start t, prevIdx epsi_start t, prevIdx delta_start t, prevIdx a_start t]

/-- Decision-vector positions copied into the returned vector by MPC.cpp
    lines 206-212, in order. -/
def trajIndices : ℕ → List ℕ
  | 0 => []
  | n + 1 => trajIndices n ++ [x_start + n + 1, y_start + n + 1]

/-- All positions of the solution vector that `MPC::Solve` returns. -/
def returnIndices : List ℕ := delta_start :: a_start :: trajIndices (N - 2)

/-- Constant zero decision vector (also the initial guess as a function). -/
def zeroVars : ℕ → ℝ := fun _ => 0

/-- Zero polynomial, a concrete input for witnesses and counterexamples. -/
def polyZero : Poly3 := ⟨0, 0, 0, 0⟩

/-- Concrete zero state for counterexamples. -/
def state0 : State := ⟨0, 0, 0, 0, 0, 0⟩

/-- Modelled from the spec, section 4.2 Cost accumulation: the weighted
    quadratic cost that claim C1 describes, with the weight constants the
    code declares on MPC.cpp lines 56-62 (cte 2000, epsi 2000, v 1,
    delta 10, a 10, delta change 100, a change 10) and reference speed
    ref_v.  The code never accumulates any of these terms into fg[0], so
    this definition exists only to be compared with the cost the code
    actually produces. -/
def specCost (vars : ℕ → ℝ) : ℝ :=
  (∑ t ∈ Finset.range N,
    (2000 * vars (cte_start + t) ^ 2 + 2000 * vars (epsi_start + t) ^ 2 +
      1 * (vars (v_start + t) - ref_v) ^ 2)) +
  (∑ t ∈ Finset.range (N - 1),
    (10 * vars (delta_start + t) ^ 2 + 10 * vars (a_start + t) ^ 2)) +
  (∑ t ∈ Finset.range (N - 2),
    (100 * (vars (delta_start + t + 1) - vars (delta_start + t)) ^ 2 +
      10 * (vars (a_start + t + 1) - vars (a_start + t)) ^ 2))

def solOOB : SolveResult := ⟨SolveStatus.local_infeasibility, fun _ => 100, 0⟩

def solOOBsuccess : SolveResult := ⟨SolveStatus.success, fun _ => 100, 0⟩

/-- Modelled from the spec, section 4.1 Kinematic Model: the bicycle-model
    prediction of the state at step t+1 from the state and actuation at
    step t, exactly as claim C6 states the six update equations.  This is
    the spec side of the refinement comparison for C6. -/
def specKinStep (c : Poly3) (s : State) (delta a : ℝ) : State where
  x := s.x + s.v * Real.cos s.psi * dt
  y := s.y + s.v * Real.sin s.psi * dt
  psi := s.psi - s.v * delta / Lf * dt
  v := s.v + a * dt
  cte := (f0val c s.x - s.y) + s.v * Real.sin s.epsi * dt
  epsi := (s.psi - Real.arctan (fprime c s.x)) - s.v * delta / Lf * dt

/-- State components held in the decision vector at horizon step t. -/
def stateAt (vars : ℕ → ℝ) (t : ℕ) : State :=
  ⟨vars (x_start + t), vars (y_start + t), vars (psi_start + t),
   vars (v_start + t), vars (cte_start + t), vars (epsi_start + t)⟩

/-- Decision vector refuting C2: every in-bounds entry is 0; the cell at
    position 2^64 - 1 — the out-of-bounds position the evaluator reads for
    the x block at t = 0 — holds 1, modelling a buffer whose surrounding
    memory is not zero. -/
def badVars : ℕ → ℝ := fun i => if i = 2 ^ 64 - 1 then 1 else 0

/-- Input state refuting C2. -/
def stateC2 : State := ⟨-1, 0, 0, 0, 0, 0⟩

theorem N_eq : N = 10 := rfl

theorem x_start_eq : x_start = 0 := rfl

theorem y_start_eq : y_start = 10 := rfl

theorem psi_start_eq : psi_start = 20 := rfl

theorem v_start_eq : v_start = 30 := rfl

theorem cte_start_eq : cte_start = 40 := rfl

theorem epsi_start_eq : epsi_start = 50 := rfl

theorem delta_start_eq : delta_start = 60 := rfl

theorem a_start_eq : a_start = 69 := rfl

theorem n_vars_eq : n_vars = 78 := rfl

theorem n_constraints_eq : n_constraints = 60 := rfl

theorem prevIdx_eq_sub (s t : ℕ) (h1 : 0 < s + t) (h2 : s + t ≤ 2 ^ 64) :
    prevIdx s t = s + t - 1 := by
  unfold prevIdx
  have hp : (2 : ℕ) ^ 64 = 18446744073709551616 := by norm_num
  rw [hp] at h2 ⊢
  omega

theorem prevIdx_x0 : prevIdx x_start 0 = 2 ^ 64 - 1 := by
  unfold prevIdx x_start
  norm_num

theorem fgEval_zero (c : Poly3) (vars : ℕ → ℝ) : fgEval c vars 0 = 0 := rfl

theorem fgEval_x_slot (c : Poly3) (vars : ℕ → ℝ) (t : ℕ) (h : t < N) :
    fgEval c vars (1 + x_start + t) = residX vars t := by
  have h10 : t < 10 := by rw [N_eq] at h; exact h
  unfold fgEval
  simp only [x_start_eq, y_start_eq, psi_start_eq, v_start_eq, cte_start_eq, epsi_start_eq,
    delta_start_eq]
  rw [if_neg (by omega)]
  rw [if_pos (by omega)]
  congr 1
  omega

theorem fgEval_y_slot (c : Poly3) (vars : ℕ → ℝ) (t : ℕ) (h : t < N) :
    fgEval c vars (1 + y_start + t) = residY vars t := by
  have h10 : t < 10 := by rw [N_eq] at h; exact h
  unfold fgEval
  simp only [x_start_eq, y_start_eq, psi_start_eq, v_start_eq, cte_start_eq, epsi_start_eq,
    delta_start_eq]
  rw [if_neg (by omega)]
  rw [if_neg (by omega)]
  rw [if_pos (by omega)]
  congr 1
  omega

theorem fgEval_psi_slot (c : Poly3) (vars : ℕ → ℝ) (t : ℕ) (h : t < N) :
    fgEval c vars (1 + psi_start + t) = residPsi vars t := by
  have h10 : t < 10 := by rw [N_eq] at h; exact h
  unfold fgEval
  simp only [x_start_eq, y_start_eq, psi_start_eq, v_start_eq, cte_start_eq, epsi_start_eq,
    delta_start_eq]
  rw [if_neg (by omega)]
  rw [if_neg (by omega)]
  rw [if_neg (by omega)]
  rw [if_pos (by omega)]
  congr 1
  omega

theorem fgEval_v_slot (c : Poly3) (vars : ℕ → ℝ) (t : ℕ) (h : t < N) :
    fgEval c vars (1 + v_start + t) = residV vars t := by
  have h10 : t < 10 := by rw [N_eq] at h; exact h
  unfold fgEval
  simp only [x_start_eq, y_start_eq, psi_start_eq, v_start_eq, cte_start_eq, epsi_start_eq,
    delta_start_eq]
  rw [if_neg (by omega)]
  rw [if_neg (by omega)]
  rw [if_neg (by omega)]
  rw [if_neg (by omega)]
  rw [if_pos (by omega)]
  congr 1
  omega

theorem fgEval_cte_slot (c : Poly3) (vars : ℕ → ℝ) (t : ℕ) (h : t < N) :
    fgEval c vars (1 + cte_start + t) = residCte c vars t := by
  have h10 : t < 10 := by rw [N_eq] at h; exact h
  unfold fgEval
  simp only [x_start_eq, y_start_eq, psi_start_eq, v_start_eq, cte_start_eq, epsi_start_eq,
    delta_start_eq]
  rw [if_neg (by omega)]
  rw [if_neg (by omega)]
  rw [if_neg (by omega)]
  rw [if_neg (by omega)]
  rw [if_neg (by omega)]
  rw [if_pos (by omega)]
  congr 1
  omega

theorem fgEval_epsi_slot (c : Poly3) (vars : ℕ → ℝ) (t : ℕ) (h : t < N) :
    fgEval c vars (1 + epsi_start + t) = residEpsi c vars t := by
  have h10 : t < 10 := by rw [N_eq] at h; exact h
  unfold fgEval
  simp only [x_start_eq, y_start_eq, psi_start_eq, v_start_eq, cte_start_eq, epsi_start_eq,
    delta_start_eq]
  rw [if_neg (by omega)]
  rw [if_neg (by omega)]
  rw [if_neg (by omega)]
  rw [if_neg (by omega)]
  rw [if_neg (by omega)]
  rw [if_neg (by omega)]
  rw [if_pos (by omega)]
  congr 1
  omega

theorem trajPairs_length (xv : ℕ → ℝ) (n : ℕ) : (trajPairs xv n).length = 2 * n := by
  induction n with
  | zero => rfl
  | succ k ih => simp [trajPairs, ih]; omega

theorem trajPairs_eq_map (xv : ℕ → ℝ) (n : ℕ) :
    trajPairs xv n = (trajIndices n).map xv := by
  induction n with
  | zero => rfl
  | succ k ih => simp [trajPairs, trajIndices, ih]

/-- C1: the claim fails on the code.  FG_eval sets fg[0] = 0 (line 53) and
    the loop never adds a cost term, so the scalar cost is identically zero
    for every decision vector, while the cost the claim describes is, at
    the all-zero decision vector, 1 * (0 - ref_v)^2 summed over N steps =
    144000.  The declared weight constants are never used. -/
theorem C1_cost_identically_zero :
    (∀ (c : Poly3) (vars : ℕ → ℝ), fgEval c vars 0 = 0) ∧
    specCost zeroVars = 144000 ∧
    fgEval polyZero zeroVars 0 ≠ specCost zeroVars := by
  have hspec : specCost zeroVars = 144000 := by
    unfold specCost zeroVars
    norm_num [ref_v, N_eq, Finset.sum_const, Finset.card_range]
  refine ⟨fun c vars => rfl, hspec, ?_⟩
  rw [fgEval_zero, hspec]
  norm_num

/-- C3: the claim fails on the code.  During residual construction the loop
    starts at t = 0 and reads `vars[x_start + t - 1]`; the index is
    computed in size_t arithmetic, so at t = 0 it is 2^64 - 1, far out of
    bounds for the decision vector of length n_vars = 78, rather than the
    index 0 the claim describes.  The reads for the other five state blocks
    at t = 0 land on the last entry of the preceding block (for example
    `vars[y_start - 1]` is position 9, the last x entry), not on block
    position 0 either. -/
theorem C3_out_of_bounds_read_at_t0 :
    prevIdx x_start 0 ∈ readIndicesAt 0 ∧
    prevIdx x_start 0 = 2 ^ 64 - 1 ∧
    ¬ prevIdx x_start 0 < n_vars ∧
    prevIdx x_start 0 ≠ x_start ∧
    prevIdx y_start 0 = y_start - 1 := by
  refine ⟨?_, prevIdx_x0, ?_, ?_, ?_⟩
  · simp [readIndicesAt]
  · rw [prevIdx_x0, n_vars_eq]
    norm_num
  · rw [prevIdx_x0, x_start_eq]
    norm_num
  · unfold prevIdx
    rw [y_start_eq]
    norm_num

/-- C5: the claim fails on the code.  Line 139 sets the steering lower
    bound to -0.436332 * Lf but line 140 sets the upper bound to
    0.43632 * Lf (a digit is missing), so the generated steering bounds are
    not symmetric around zero; the comment on line 137 says both were meant
    to be 25 degrees = 0.436332 rad. -/
theorem C5_steering_bounds_not_symmetric :
    varsLower delta_start = -0.436332 * Lf ∧
    varsUpper delta_start = 0.43632 * Lf ∧
    varsLower delta_start ≠ -varsUpper delta_start := by
  unfold varsLower varsUpper
  norm_num [delta_start_eq, a_start_eq, Lf]

/-- C4: counterexample.  A terminal point whose steering entry is 100
    (far beyond the steering upper bound) reported with the distinct
    failure status `local_infeasibility` is returned by `MPC::Solve`
    exactly as if the status had been `success`, and the out-of-bounds
    steering value 100 is returned as the applied command: no distinct
    surfacing, no finiteness/bounds validation, no fallback. -/
theorem C4_counterexample :
    MPC_Solve state0 polyZero solOOB = MPC_Solve state0 polyZero solOOBsuccess ∧
    (MPC_Solve state0 polyZero solOOB).getD 0 0 = 100 ∧
    ¬ (MPC_Solve state0 polyZero solOOB).getD 0 0 ≤ varsUpper delta_start := by
  refine ⟨rfl, rfl, ?_⟩
  have h : (MPC_Solve state0 polyZero solOOB).getD 0 0 = 100 := rfl
  rw [h]
  unfold varsUpper
  norm_num [delta_start_eq, a_start_eq, Lf]

/-- C4 as amended: the solver status is folded into a local flag that is
    never read again, and `MPC::Solve` returns the vector extracted from
    the terminal point unconditionally, identical for every status, with
    no finiteness or bounds validation and no fallback. -/
theorem C4_status_never_consulted (s : State) (c : Poly3) (st1 st2 : SolveStatus)
    (xv : ℕ → ℝ) (o1 o2 : ℝ) :
    MPC_Solve s c ⟨st1, xv, o1⟩ = MPC_Solve s c ⟨st2, xv, o2⟩ ∧
    MPC_Solve s c ⟨st1, xv, o1⟩ =
      xv delta_start :: xv a_start :: trajPairs xv (N - 2) :=
  ⟨rfl, rfl⟩

/-- C7: confirmed.  The assembled decision-variable bounds are ±1.0e19 on
    every state entry and exactly [-1, 1] on every acceleration entry, and
    the constraint-residual bounds are lower = upper = 0 everywhere except
    the six slots at the block starts, which carry the corresponding
    component of the current state. -/
theorem C7_bounds_content (s : State) :
    (∀ i : Fin delta_start, varsLower (i : ℕ) = -1.0e19 ∧ varsUpper (i : ℕ) = 1.0e19) ∧
    (∀ j : Fin (N - 1), varsLower (a_start + (j : ℕ)) = -1 ∧ varsUpper (a_start + (j : ℕ)) = 1) ∧
    (∀ i : Fin n_constraints,
      (i : ℕ) ≠ x_start → (i : ℕ) ≠ y_start → (i : ℕ) ≠ psi_start → (i : ℕ) ≠ v_start →
      (i : ℕ) ≠ cte_start → (i : ℕ) ≠ epsi_start →
      constraintsLower s (i : ℕ) = 0 ∧ constraintsUpper s (i : ℕ) = 0) ∧
    (constraintsLower s x_start = s.x ∧ constraintsUpper s x_start = s.x) ∧
    (constraintsLower s y_start = s.y ∧ constraintsUpper s y_start = s.y) ∧
    (constraintsLower s psi_start = s.psi ∧ constraintsUpper s psi_start = s.psi) ∧
    (constraintsLower s v_start = s.v ∧ constraintsUpper s v_start = s.v) ∧
    (constraintsLower s cte_start = s.cte ∧ constraintsUpper s cte_start = s.cte) ∧
    (constraintsLower s epsi_start = s.epsi ∧ constraintsUpper s epsi_start = s.epsi) := by
  refine ⟨?_, ?_, ?_, ?_, ?_, ?_, ?_, ?_, ?_⟩
  · intro i
    have hi := i.isLt
    unfold varsLower varsUpper
    rw [if_pos hi, if_pos hi]
    exact ⟨rfl, rfl⟩
  · intro j
    have hj : (j : ℕ) < 9 := j.isLt
    have hge : ¬ a_start + (j : ℕ) < delta_start := by
      rw [a_start_eq, delta_start_eq]; omega
    have hge2 : ¬ a_start + (j : ℕ) < a_start := by omega
    unfold varsLower varsUpper
    simp only [if_neg hge, if_neg hge2]
    norm_num
  · intro i h1 h2 h3 h4 h5 h6
    unfold constraintsLower constraintsUpper
    rw [if_neg h1, if_neg h2, if_neg h3, if_neg h4, if_neg h5, if_neg h6]
    exact ⟨rfl, rfl⟩
  all_goals
    unfold constraintsLower constraintsUpper
    norm_num [x_start_eq, y_start_eq, psi_start_eq, v_start_eq, cte_start_eq, epsi_start_eq]

/-- C8: confirmed.  The decision vector is laid out as six state blocks of
    length N starting at offset 0, in the order x, y, psi, v, cte, epsi,
    followed by the steering and acceleration blocks of length N - 1, for
    a total length of N*6 + (N-1)*2; the constraint residual vector has
    length N*6; and the evaluator writes each residual of block b, step t
    at slot 1 + b_start + t while the bounds assembler applies the
    steering range exactly on [delta_start, a_start). -/
theorem C8_decision_vector_layout :
    n_vars = N * 6 + (N - 1) * 2 ∧
    n_constraints = N * 6 ∧
    x_start = 0 ∧ y_start = x_start + N ∧ psi_start = y_start + N ∧
    v_start = psi_start + N ∧ cte_start = v_start + N ∧ epsi_start = cte_start + N ∧
    delta_start = epsi_start + N ∧ a_start = delta_start + (N - 1) ∧
    a_start + (N - 1) = n_vars ∧
    (∀ (c : Poly3) (vars : ℕ → ℝ) (t : Fin N),
      fgEval c vars (1 + x_start + (t : ℕ)) = residX vars (t : ℕ) ∧
      fgEval c vars (1 + y_start + (t : ℕ)) = residY vars (t : ℕ) ∧
      fgEval c vars (1 + psi_start + (t : ℕ)) = residPsi vars (t : ℕ) ∧
      fgEval c vars (1 + v_start + (t : ℕ)) = residV vars (t : ℕ) ∧
      fgEval c vars (1 + cte_start + (t : ℕ)) = residCte c vars (t : ℕ) ∧
      fgEval c vars (1 + epsi_start + (t : ℕ)) = residEpsi c vars (t : ℕ)) ∧
    (∀ i : Fin n_vars,
      ((i : ℕ) < delta_start → varsLower (i : ℕ) = -1.0e19 ∧ varsUpper (i : ℕ) = 1.0e19) ∧
      (delta_start ≤ (i : ℕ) → (i : ℕ) < a_start →
        varsLower (i : ℕ) = -0.436332 * Lf ∧ varsUpper (i : ℕ) = 0.43632 * Lf)) := by
  refine ⟨rfl, rfl, rfl, rfl, rfl, rfl, rfl, rfl, rfl, rfl, rfl, ?_, ?_⟩
  · intro c vars t
    exact ⟨fgEval_x_slot c vars t t.isLt, fgEval_y_slot c vars t t.isLt,
      fgEval_psi_slot c vars t t.isLt, fgEval_v_slot c vars t t.isLt,
      fgEval_cte_slot c vars t t.isLt, fgEval_epsi_slot c vars t t.isLt⟩
  · intro i
    constructor
    · intro hlt
      unfold varsLower varsUpper
      rw [if_pos hlt, if_pos hlt]
      exact ⟨rfl, rfl⟩
    · intro hge hlt
      unfold varsLower varsUpper
      rw [if_neg (by omega), if_pos hlt, if_neg (by omega), if_pos hlt]
      exact ⟨rfl, rfl⟩

/-- C9: confirmed.  On any solve outcome the returned vector starts with
    the first decided steering `solution.x[delta_start]` and the first
    decided acceleration `solution.x[a_start]`, followed by the predicted
    (x, y) pairs at horizon steps 1 .. N-2 taken from the solution vector,
    and the initial guess is the all-zero vector (cold start). -/
theorem C9_extraction_structure (s : State) (c : Poly3) (sol : SolveResult) :
    MPC_Solve s c sol =
      [sol.x delta_start, sol.x a_start,
       sol.x (x_start + 1), sol.x (y_start + 1), sol.x (x_start + 2), sol.x (y_start + 2),
       sol.x (x_start + 3), sol.x (y_start + 3), sol.x (x_start + 4), sol.x (y_start + 4),
       sol.x (x_start + 5), sol.x (y_start + 5), sol.x (x_start + 6), sol.x (y_start + 6),
       sol.x (x_start + 7), sol.x (y_start + 7), sol.x (x_start + 8), sol.x (y_start + 8)] ∧
    varsInitial.length = n_vars ∧
    (∀ i : Fin n_vars, varsInitial.getD (i : ℕ) 0 = 0) := by
  refine ⟨rfl, by simp [varsInitial], ?_⟩
  intro i
  simp [varsInitial]

/-- C10: confirmed.  For every input and every solver status the returned
    vector has exactly 2 + 2*(N-2) = 18 entries copied from the terminal
    point, is identical whatever the status (the status is not encoded in
    it), and the copied positions are the first steering, the first
    acceleration and the (x, y) entries of steps 1 .. N-2 only: positions
    x_start, y_start (step 0) and x_start + (N-1), y_start + (N-1) (the
    final step) are never copied. -/
theorem C10_return_vector_shape (s : State) (c : Poly3) (st1 st2 : SolveStatus)
    (xv : ℕ → ℝ) (o1 o2 : ℝ) :
    (MPC_Solve s c ⟨st1, xv, o1⟩).length = 2 + 2 * (N - 2) ∧
    (MPC_Solve s c ⟨st1, xv, o1⟩).length = 18 ∧
    MPC_Solve s c ⟨st1, xv, o1⟩ = MPC_Solve s c ⟨st2, xv, o2⟩ ∧
    MPC_Solve s c ⟨st1, xv, o1⟩ = returnIndices.map xv ∧
    x_start ∉ returnIndices ∧ y_start ∉ returnIndices ∧
    x_start + (N - 1) ∉ returnIndices ∧ y_start + (N - 1) ∉ returnIndices := by
  refine ⟨rfl, rfl, rfl, ?_, by decide, by decide, by decide, by decide⟩
  show xv delta_start :: xv a_start :: trajPairs xv (N - 2) = returnIndices.map xv
  rw [returnIndices, List.map_cons, List.map_cons, trajPairs_eq_map]

theorem prevIdx_offset (s t : ℕ) (hs : s ≤ 69) (h1 : 1 ≤ t) (ht : t ≤ 9) :
    prevIdx s t = s + (t - 1) := by
  unfold prevIdx
  have hp : (2 : ℕ) ^ 64 = 18446744073709551616 := by norm_num
  rw [hp]
  omega

/-- C6: confirmed.  For every horizon step t = 1 .. N-1 the residual the
    evaluator stores at slot 1 + block_start + t is exactly the decided
    state component at step t minus the bicycle-model prediction computed
    from the decided state and actuation at step t - 1, for each of the six
    state dimensions, with f the degree-3 reference polynomial. -/
theorem C6_residuals_match_kinematic_model (c : Poly3) (vars : ℕ → ℝ) (t : ℕ)
    (h1 : 1 ≤ t) (h2 : t ≤ N - 1) :
    fgEval c vars (1 + x_start + t) =
      (stateAt vars t).x -
        (specKinStep c (stateAt vars (t - 1))
          (vars (delta_start + (t - 1))) (vars (a_start + (t - 1)))).x ∧
    fgEval c vars (1 + y_start + t) =
      (stateAt vars t).y -
        (specKinStep c (stateAt vars (t - 1))
          (vars (delta_start + (t - 1))) (vars (a_start + (t - 1)))).y ∧
    fgEval c vars (1 + psi_start + t) =
      (stateAt vars t).psi -
        (specKinStep c (stateAt vars (t - 1))
          (vars (delta_start + (t - 1))) (vars (a_start + (t - 1)))).psi ∧
    fgEval c vars (1 + v_start + t) =
      (stateAt vars t).v -
        (specKinStep c (stateAt vars (t - 1))
          (vars (delta_start + (t - 1))) (vars (a_start + (t - 1)))).v ∧
    fgEval c vars (1 + cte_start + t) =
      (stateAt vars t).cte -
        (specKinStep c (stateAt vars (t - 1))
          (vars (delta_start + (t - 1))) (vars (a_start + (t - 1)))).cte ∧
    fgEval c vars (1 + epsi_start + t) =
      (stateAt vars t).epsi -
        (specKinStep c (stateAt vars (t - 1))
          (vars (delta_start + (t - 1))) (vars (a_start + (t - 1)))).epsi := by
  have ht9 : t ≤ 9 := h2
  have htN : t < N := by rw [N_eq]; omega
  have hx0 : prevIdx x_start t = x_start + (t - 1) := prevIdx_offset 0 t (by omega) h1 ht9
  have hy0 : prevIdx y_start t = y_start + (t - 1) := prevIdx_offset 10 t (by omega) h1 ht9
  have hpsi0 : prevIdx psi_start t = psi_start + (t - 1) :=
    prevIdx_offset 20 t (by omega) h1 ht9
  have hv0 : prevIdx v_start t = v_start + (t - 1) := prevIdx_offset 30 t (by omega) h1 ht9
  have hepsi0 : prevIdx epsi_start t = epsi_start + (t - 1) :=
    prevIdx_offset 50 t (by omega) h1 ht9
  have hdelta0 : prevIdx delta_start t = delta_start + (t - 1) :=
    prevIdx_offset 60 t (by omega) h1 ht9
  have ha0 : prevIdx a_start t = a_start + (t - 1) := prevIdx_offset 69 t (by omega) h1 ht9
  rw [fgEval_x_slot c vars t htN, fgEval_y_slot c vars t htN, fgEval_psi_slot c vars t htN,
    fgEval_v_slot c vars t htN, fgEval_cte_slot c vars t htN, fgEval_epsi_slot c vars t htN]
  unfold residX residY residPsi residV residCte residEpsi stateAt specKinStep psiDes
  rw [hx0, hy0, hpsi0, hv0, hepsi0, hdelta0, ha0]
  exact ⟨rfl, rfl, rfl, rfl, rfl, rfl⟩

theorem badVars_small (i : ℕ) (h : i < 100) : badVars i = 0 := by
  unfold badVars
  have hp : (2 : ℕ) ^ 64 - 1 = 18446744073709551615 := by norm_num
  rw [hp, if_neg (by omega)]

theorem badVars_oob : badVars (2 ^ 64 - 1) = 1 := by
  unfold badVars
  rw [if_pos rfl]

theorem residX_bad (t : ℕ) (h1 : 1 ≤ t) (h2 : t ≤ 9) : residX badVars t = 0 := by
  interval_cases t <;>
    norm_num [residX, prevIdx, badVars, x_start_eq, v_start_eq, psi_start_eq, dt]

theorem residY_bad (t : ℕ) (h1 : 1 ≤ t) (h2 : t ≤ 9) : residY badVars t = 0 := by
  interval_cases t <;>
    norm_num [residY, prevIdx, badVars, y_start_eq, v_start_eq, psi_start_eq, dt]

theorem residPsi_bad (t : ℕ) (h1 : 1 ≤ t) (h2 : t ≤ 9) : residPsi badVars t = 0 := by
  interval_cases t <;>
    norm_num [residPsi, prevIdx, badVars, psi_start_eq, v_start_eq, delta_start_eq, dt, Lf]

theorem residV_bad (t : ℕ) (h1 : 1 ≤ t) (h2 : t ≤ 9) : residV badVars t = 0 := by
  interval_cases t <;>
    norm_num [residV, prevIdx, badVars, v_start_eq, a_start_eq, dt]

theorem residCte_bad (t : ℕ) (h1 : 1 ≤ t) (h2 : t ≤ 9) :
    residCte polyZero badVars t = 0 := by
  interval_cases t <;>
    norm_num [residCte, prevIdx, badVars, f0val, polyZero, cte_start_eq, x_start_eq,
      y_start_eq, v_start_eq, epsi_start_eq, dt]

theorem residEpsi_bad (t : ℕ) (h1 : 1 ≤ t) (h2 : t ≤ 9) :
    residEpsi polyZero badVars t = 0 := by
  interval_cases t <;>
    norm_num [residEpsi, prevIdx, badVars, psiDes, fprime, polyZero, epsi_start_eq,
      x_start_eq, psi_start_eq, v_start_eq, delta_start_eq, dt, Lf, Real.arctan_zero]

theorem residX0_bad : residX badVars 0 = -1 := by
  norm_num [residX, prevIdx, badVars, x_start_eq, v_start_eq, psi_start_eq, dt]

theorem residY0_bad : residY badVars 0 = 0 := by
  norm_num [residY, prevIdx, badVars, y_start_eq, v_start_eq, psi_start_eq, dt]

theorem residPsi0_bad : residPsi badVars 0 = 0 := by
  norm_num [residPsi, prevIdx, badVars, psi_start_eq, v_start_eq, delta_start_eq, dt, Lf]

theorem residV0_bad : residV badVars 0 = 0 := by
  norm_num [residV, prevIdx, badVars, v_start_eq, a_start_eq, dt]

theorem residCte0_bad : residCte polyZero badVars 0 = 0 := by
  norm_num [residCte, prevIdx, badVars, f0val, polyZero, cte_start_eq, x_start_eq,
    y_start_eq, v_start_eq, epsi_start_eq, dt]

theorem residEpsi0_bad : residEpsi polyZero badVars 0 = 0 := by
  norm_num [residEpsi, prevIdx, badVars, psiDes, fprime, polyZero, epsi_start_eq,
    x_start_eq, psi_start_eq, v_start_eq, delta_start_eq, dt, Lf, Real.arctan_zero]

theorem fg_slots_bad (k : ℕ) (hk : k < 60) :
    fgEval polyZero badVars (1 + k) = if k = 0 then -1 else 0 := by
  interval_cases k <;>
    norm_num [fgEval, x_start_eq, y_start_eq, psi_start_eq, v_start_eq, cte_start_eq,
      epsi_start_eq, delta_start_eq, residX_bad, residY_bad, residPsi_bad, residV_bad,
      residCte_bad, residEpsi_bad, residX0_bad, residY0_bad, residPsi0_bad, residV0_bad,
      residCte0_bad, residEpsi0_bad]

theorem cb_bad (k : ℕ) :
    constraintsLower stateC2 k = (if k = 0 then -1 else 0) ∧
    constraintsUpper stateC2 k = (if k = 0 then -1 else 0) := by
  unfold constraintsLower constraintsUpper stateC2
  simp only [x_start_eq, y_start_eq, psi_start_eq, v_start_eq, cte_start_eq, epsi_start_eq]
  split_ifs <;> simp_all

/-- C2: the claim fails on the code.  Because the residual loop starts at
    t = 0 instead of t = 1, the constraint slot of step 0 of each block
    holds a dynamics expression over reads at position block_start - 1
    (for the x block an out-of-bounds read) instead of the bare step-0
    variable, so the constraint bounds do not pin the step-0 variables to
    the input state: the all-zero decision vector satisfies every
    variable bound and every constraint bound assembled for the state
    (-1, 0, 0, 0, 0, 0) when the out-of-bounds cell holds 1, yet its
    step-0 x entry is 0, not -1. -/
theorem C2_step0_pinning_broken :
    (∀ i : Fin n_vars,
      varsLower (i : ℕ) ≤ badVars (i : ℕ) ∧ badVars (i : ℕ) ≤ varsUpper (i : ℕ)) ∧
    (∀ i : Fin n_constraints,
      constraintsLower stateC2 (i : ℕ) ≤ fgEval polyZero badVars (1 + (i : ℕ)) ∧
      fgEval polyZero badVars (1 + (i : ℕ)) ≤ constraintsUpper stateC2 (i : ℕ)) ∧
    badVars x_start ≠ stateC2.x := by
  refine ⟨?_, ?_, ?_⟩
  · intro i
    have hi : (i : ℕ) < 78 := i.isLt
    have hz : badVars (i : ℕ) = 0 := badVars_small (i : ℕ) (by omega)
    rw [hz]
    unfold varsLower varsUpper
    split_ifs <;> norm_num [Lf]
  · intro i
    have hk : (i : ℕ) < 60 := i.isLt
    have hfg : fgEval polyZero badVars (1 + (i : ℕ)) = if (i : ℕ) = 0 then -1 else 0 :=
      fg_slots_bad (i : ℕ) hk
    have hcb := cb_bad (i : ℕ)
    rw [hfg, hcb.1, hcb.2]
    exact ⟨le_refl _, le_refl _⟩
  · norm_num [badVars, stateC2, x_start_eq]

/-- Witness for C6: the theorem instantiated at the zero polynomial, the
    all-zero decision vector and t = 1 (first component shown). -/
theorem C6_residuals_match_kinematic_model_witness :
    (1 : ℕ) ≤ 1 ∧ (1 : ℕ) ≤ N - 1 ∧
    fgEval polyZero zeroVars (1 + x_start + 1) =
      (stateAt zeroVars 1).x -
        (specKinStep polyZero (stateAt zeroVars 0)
          (zeroVars (delta_start + 0)) (zeroVars (a_start + 0))).x :=
  ⟨le_refl 1, by rw [N_eq]; omega,
    (C6_residuals_match_kinematic_model polyZero zeroVars 1 (le_refl 1)
      (by rw [N_eq]; omega)).1⟩

end
